import Mathlib

/-
Verification of the odrive_can_tools CAN configuration stack.

Shallow embedding conventions:
* Python runtime values flowing through the SDO read/write layer are
  modelled by PyVal; Python floats are modelled as exact rationals
  (IEEE rounding of arithmetic is outside the model, IEEE bit decoding
  of received payloads is modelled exactly for finite numbers).
* The CAN bus is modelled as explicit state: a list of per-receive-window
  arrival batches (each call to receive_can_message scans the frames that
  arrive during its bounded 50 ms window), a log of sent frames, and a
  list of outcomes for successive physical send attempts (can.CanError
  on send maps to a false entry; the default is success).
* Sent frames record the pre-pack arguments together with the struct
  format string, since struct.pack is injective for in-range arguments
  of a fixed format; received frames carry raw little-endian bytes and
  are unpacked exactly as struct.unpack_from does, including the
  struct.error raised on a too-short buffer.
* Python exceptions are modelled with Except String; a raised exception
  propagates until a try/except in the source catches it.
-/

deriving instance DecidableEq for Except

namespace ODrive

/-- Python-level runtime values produced and consumed by the SDO layer.
PyVal.none models Python None; floats are exact rationals. -/
inductive PyVal where
  | none
  | bool (b : Bool)
  | int (n : ℤ)
  | float (q : ℚ)
deriving DecidableEq, Repr

/-- Numeric view of a Python value, as used by arithmetic and by the
numeric equality of Python (True counts as 1). Python None never reaches
the call sites that use this view. -/
def PyVal.toRat : PyVal → ℚ
  | .none => 0
  | .bool b => if b then 1 else 0
  | .int n => (n : ℚ)
  | .float q => q

/-- Python equality (the == operator): numbers of any of bool/int/float
compare numerically; None is equal only to None. -/
def pyEq : PyVal → PyVal → Bool
  | .none, .none => true
  | .none, _ => false
  | _, .none => false
  | a, b => a.toRat == b.toRat

/-- Python truthiness as used by if-statements: None, False, 0 and 0.0
are falsy, every other value of these kinds is truthy. -/
def pyTruthy : PyVal → Bool
  | .none => false
  | .bool b => b
  | .int n => n != 0
  | .float q => q != 0

/-- Test for the Python float type, as isinstance(v, float). -/
def PyVal.isFloat : PyVal → Bool
  | .float _ => true
  | _ => false

/-- A frame as delivered by bus.recv: a CAN arbitration id and the raw
payload bytes. -/
structure RxFrame where
  arbitration_id : ℕ
  data : List ℕ
deriving DecidableEq, Repr

/-- A frame as handed to bus.send by send_can_message: the arbitration id
together with the struct format string and the pre-pack arguments of
struct.pack (which is injective on in-range arguments for a fixed
format, so no information is lost relative to the wire bytes). -/
structure TxFrame where
  arbitration_id : ℕ
  fmt : String
  args : List PyVal
deriving DecidableEq, Repr

/-- The bus state. incoming lists, per successive receive window, the
frames arriving during that window; sent logs every successfully sent
frame in order; sendOk lists the outcomes of successive physical send
attempts (exhausted entries default to success). -/
structure Bus where
  incoming : List (List RxFrame)
  sent : List TxFrame
  sendOk : List Bool
deriving DecidableEq, Repr

/-- Constant READ, the SDO read opcode (configure.py). -/
def READ : ℕ := 0x00

/-- Constant WRITE, the SDO write opcode (configure.py). -/
def WRITE : ℕ := 0x01

/-- Constant RXSDO, the command id of SDO requests (configure.py). -/
def RXSDO : ℕ := 0x04

/-- Constant TXSDO, the command id of SDO responses (configure.py). -/
def TXSDO : ℕ := 0x05

/-- Frame-address encoding used by send_can_message:
arbitration_id = node_id << 5 | command_id. -/
def encode_address (node_id command_id : ℕ) : ℕ :=
  node_id <<< 5 ||| command_id

/-- Node-id half of address decoding (can_utils.extract_node_id):
shift the arbitration id right by 5. -/
def extract_node_id (arbitration_id : ℕ) : ℕ :=
  arbitration_id >>> 5

/-- Modelled from the spec: the command half of address decoding is not
implemented anywhere in the repository (only the node half,
extract_node_id, is); the spec declares the command id to occupy the low
5 bits (command space 0 to 31), so the command is the address modulo 32. -/
def decode_command (arbitration_id : ℕ) : ℕ :=
  arbitration_id % 32

/-- Full address decoding: node half from the source's extract_node_id,
command half modelled from the spec. -/
def decode_address (arbitration_id : ℕ) : ℕ × ℕ :=
  (extract_node_id arbitration_id, decode_command arbitration_id)

/-- Embedding of can_utils.send_can_message: builds the frame with
arbitration id node_id << 5 | command_id and sends it; a transport
error (can.CanError) is caught and reported as a false return value,
and the frame is then not sent. -/
def send_can_message (bus : Bus) (node_id command_id : ℕ)
    (fmt : String) (args : List PyVal) : Bus × Bool :=
  match bus.sendOk with
  | [] =>
    ({ bus with sent := bus.sent ++ [⟨encode_address node_id command_id, fmt, args⟩] },
      true)
  | ok :: rest =>
    if ok then
      ({ bus with
          sent := bus.sent ++ [⟨encode_address node_id command_id, fmt, args⟩],
          sendOk := rest },
        true)
    else
      ({ bus with sendOk := rest }, false)

/-- First frame in an arrival batch carrying the expected arbitration id,
if any; models the polling loop of receive_can_message, which skips and
discards frames with other ids. -/
def scanForId (batch : List RxFrame) (expected : ℕ) : Option RxFrame :=
  match batch with
  | [] => Option.none
  | f :: rest =>
    if f.arbitration_id == expected then Option.some f
    else scanForId rest expected

/-- Embedding of can_utils.receive_can_message: within one bounded
(50 ms) receive window, poll the bus and return the first frame whose
arbitration id equals the expected one; if no such frame arrives before
the window closes (or a transport error occurs), return None. The
window's arrivals are the head batch of bus.incoming, which is consumed. -/
def receive_can_message (bus : Bus) (expected : ℕ) : Bus × Option RxFrame :=
  match bus.incoming with
  | [] => (bus, scanForId [] expected)
  | batch :: rest => ({ bus with incoming := rest }, scanForId batch expected)

/-- Embedding of can_utils.discover_node_ids: after draining stale
buffered frames, every frame observed during the discovery window
contributes the node id decoded from its arbitration id to a set
(duplicates collapse); the argument is the list of frames arriving
during the window, in order. -/
def discover_loop : List RxFrame → Finset ℕ → Finset ℕ
  | [], s => s
  | f :: rest, s => discover_loop rest (insert (extract_node_id f.arbitration_id) s)

/-- Discovery entry point: the set of node ids of the frames observed
during the window (can_utils.discover_node_ids returns this set as a
list in unspecified order; odrive_configurator.discover_node_ids returns
the set itself). -/
def discover_node_ids (window : List RxFrame) : Finset ℕ :=
  discover_loop window ∅

/-- Embedding of configure.format_lookup: maps each semantic type name
to its struct format character; a missing key raises KeyError at the
lookup site. -/
def format_lookup : String → Option Char
  | "bool" => Option.some '?'
  | "uint8" => Option.some 'B'
  | "int8" => Option.some 'b'
  | "uint16" => Option.some 'H'
  | "int16" => Option.some 'h'
  | "uint32" => Option.some 'I'
  | "int32" => Option.some 'i'
  | "uint64" => Option.some 'Q'
  | "int64" => Option.some 'q'
  | "float" => Option.some 'f'
  | _ => Option.none

/-- Wire width in bytes of each struct format character, as struct.calcsize
gives it for the standard little-endian sizes. -/
def typeWidth : Char → ℕ
  | '?' => 1
  | 'B' => 1
  | 'b' => 1
  | 'H' => 2
  | 'h' => 2
  | 'I' => 4
  | 'i' => 4
  | 'Q' => 8
  | 'q' => 8
  | 'f' => 4
  | _ => 0

/-- Little-endian byte list to natural number (bytes are taken mod 256). -/
def bytesToNatLE : List ℕ → ℕ
  | [] => 0
  | b :: rest => b % 256 + 256 * bytesToNatLE rest

/-- Two's-complement reading of an unsigned width-byte value, as struct
unpacks the signed integer formats. -/
def decodeSigned (width n : ℕ) : ℤ :=
  if n < 2 ^ (8 * width - 1) then (n : ℤ) else (n : ℤ) - 2 ^ (8 * width)

/-- Exact value of a finite IEEE-754 single-precision number from its
32-bit pattern. The IEEE specials (infinities, NaN: exponent 255) are
outside the model and map to 0; they do not occur in the claims. -/
def decodeFloat32 (bits : ℕ) : ℚ :=
  let sign : ℕ := bits / 2 ^ 31 % 2
  let expo : ℕ := bits / 2 ^ 23 % 2 ^ 8
  let frac : ℕ := bits % 2 ^ 23
  let mag : ℚ :=
    if expo = 0 then (frac : ℚ) / 2 ^ 149
    else if expo = 255 then 0
    else ((2 ^ 23 + frac : ℕ) : ℚ) * 2 ^ expo / 2 ^ 150
  if sign = 1 then -mag else mag

/-- Value of one struct format character applied to its width-byte
little-endian slice, with the Python result type struct produces:
a bool for the ? format, an int for the integer formats, a float for f. -/
def decodeVal (fc : Char) (bytes : List ℕ) : PyVal :=
  match fc with
  | '?' => .bool (bytesToNatLE bytes != 0)
  | 'B' => .int (bytesToNatLE bytes)
  | 'H' => .int (bytesToNatLE bytes)
  | 'I' => .int (bytesToNatLE bytes)
  | 'Q' => .int (bytesToNatLE bytes)
  | 'b' => .int (decodeSigned 1 (bytesToNatLE bytes))
  | 'h' => .int (decodeSigned 2 (bytesToNatLE bytes))
  | 'i' => .int (decodeSigned 4 (bytesToNatLE bytes))
  | 'q' => .int (decodeSigned 8 (bytesToNatLE bytes))
  | 'f' => .float (decodeFloat32 (bytesToNatLE bytes))
  | _ => .none

/-- Error message of the exception struct.unpack_from raises on a buffer
shorter than the format requires. -/
def structError : String := "struct.error"

/-- Error message of the exception a failed dict lookup raises. -/
def keyError : String := "KeyError"

/-- Embedding of struct.unpack_from with format <BHB followed by one
value format character, projected to the value (the fourth component,
which is what read_config keeps). The 4 header bytes are skipped; a
buffer shorter than 4 + width raises struct.error; surplus trailing
bytes are ignored, exactly as unpack_from ignores them. -/
def unpack_from (fc : Char) (data : List ℕ) : Except String PyVal :=
  if data.length < 4 + typeWidth fc then .error structError
  else .ok (decodeVal fc ((data.drop 4).take (typeWidth fc)))

/-- Struct format string of the 4-byte SDO request/response header. -/
def fmtBHB : String := "<BHB"

/-- Struct format string of an SDO message with a trailing value of the
given format character. -/
def fmtBHBv (fc : Char) : String := String.push fmtBHB fc

/-- Unpack phase of configure.read_config, applied to the outcome of the
receive window: no correlated frame means Python None; with a frame, the
format character is looked up (KeyError escapes if the type name is
unknown) and the value is unpacked from the payload (struct.error
escapes if the payload is short). -/
def sdoReadResult (endpoint_type : String) (resp : Option RxFrame) : Except String PyVal :=
  match resp with
  | Option.none => .ok PyVal.none
  | Option.some f =>
    match format_lookup endpoint_type with
    | Option.none => .error keyError
    | Option.some fc =>
      match unpack_from fc f.data with
      | .error m => .error m
      | .ok v => .ok v

/-- Embedding of configure.read_config: send an SDO read request
(opcode READ, endpoint id, reserved 0) to the node's RXSDO command,
then wait one bounded window for a frame with the node's TXSDO
arbitration id, and unpack its payload as sdoReadResult does. -/
def read_config (bus : Bus) (node_id endpoint_id : ℕ) (endpoint_type : String) :
    Bus × Except String PyVal :=
  let s1 := send_can_message bus node_id RXSDO fmtBHB [.int READ, .int endpoint_id, .int 0]
  let r := receive_can_message s1.1 (encode_address node_id TXSDO)
  (r.1, sdoReadResult endpoint_type r.2)

/-- Embedding of configure.write_config: look up the format character
(KeyError if unknown), then send the SDO write request. The boolean
result of send_can_message is discarded and the Python return value is
None, whether or not the physical send succeeded. -/
def write_config (bus : Bus) (node_id endpoint_id : ℕ) (endpoint_type : String)
    (value : PyVal) : Bus × Except String PyVal :=
  match format_lookup endpoint_type with
  | Option.none => (bus, .error keyError)
  | Option.some fc =>
    let s := send_can_message bus node_id RXSDO (fmtBHBv fc)
      [.int WRITE, .int endpoint_id, .int 0, value]
    (s.1, .ok PyVal.none)

/-- Embedding of configure.validate_config: read the endpoint; None
means validation failure; a float expected value compares within the
absolute tolerance; every other expected value compares with Python
equality. An exception raised by the read escapes. -/
def validate_config (bus : Bus) (node_id endpoint_id : ℕ) (endpoint_type : String)
    (expected_value : PyVal) (tolerance : ℚ) : Bus × Except String Bool :=
  match read_config bus node_id endpoint_id endpoint_type with
  | (bus1, .error m) => (bus1, .error m)
  | (bus1, .ok actual) =>
    match actual with
    | .none => (bus1, .ok false)
    | _ =>
      if expected_value.isFloat then
        (bus1, .ok (decide (|actual.toRat - expected_value.toRat| ≤ tolerance)))
      else
        (bus1, .ok (pyEq actual expected_value))

/-- Embedding of configure.save_config: send an SDO write request (with
no value payload) to the save endpoint; fire and forget. -/
def save_config (bus : Bus) (node_id save_endpoint_id : ℕ) : Bus :=
  (send_can_message bus node_id RXSDO fmtBHB [.int WRITE, .int save_endpoint_id, .int 0]).1

/-- One entry of the endpoint registry: numeric id and semantic type
name, as the endpoints JSON stores them under each path. -/
structure EndpointInfo where
  id : ℕ
  ty : String
deriving DecidableEq, Repr

/-- The endpoint registry: an association of dotted paths to endpoint
info, with unique paths (a loaded JSON object). -/
def Endpoints : Type := List (String × EndpointInfo)

/-- Dict lookup endpoints[path]: the info registered under the path,
None when the path is absent (in Python the latter raises KeyError at
subscript sites and makes the in operator return False). -/
def lookupEndpoint (eps : Endpoints) (path : String) : Option EndpointInfo :=
  match eps with
  | [] => Option.none
  | (p, info) :: rest =>
    if p == path then Option.some info else lookupEndpoint rest path

/-- Reserved registry path of the persist (save) endpoint. -/
def pathSave : String := "save_configuration"

/-- Path of the axis state endpoint polled during calibration. -/
def pathCurrentState : String := "axis0.current_state"

/-- First entry of clear_errors' fixed error endpoint list. -/
def pathActiveErrors : String := "axis0.active_errors"

/-- Second entry of clear_errors' fixed error endpoint list. -/
def pathDisarmReason : String := "axis0.disarm_reason"

/-- Substring tested by clear_errors before it writes a clearing zero. -/
def activeErrorsKey : String := "active_errors"

/-- The fixed error endpoint list of configure.clear_errors. -/
def error_endpoints : List String := [pathActiveErrors, pathDisarmReason]

/-- Default tolerance 1e-2 of set_odrive_parameter and validate_config. -/
def defaultTolerance : ℚ := 1 / 100

/-- The already-set test of configure.set_odrive_parameter: a float
current value is compared within the absolute tolerance; any other
current value is compared with Python equality (a float current value
outside the tolerance falls through to the write path without an
equality check, exactly as the if/elif chain of the source does). -/
def alreadySet (current target : PyVal) (tolerance : ℚ) : Bool :=
  match current with
  | .float q => decide (|q - target.toRat| ≤ tolerance)
  | _ => pyEq current target

/-- Embedding of configure.set_odrive_parameter: registry lookup
(KeyError escapes on an unknown path), read of the current value (None
gives False), skip when already set, otherwise write then validate. -/
def set_odrive_parameter (bus : Bus) (node_id : ℕ) (path : String) (value : PyVal)
    (eps : Endpoints) (tolerance : ℚ) : Bus × Except String Bool :=
  match lookupEndpoint eps path with
  | Option.none => (bus, .error keyError)
  | Option.some info =>
    match read_config bus node_id info.id info.ty with
    | (bus1, .error m) => (bus1, .error m)
    | (bus1, .ok current) =>
      match current with
      | .none => (bus1, .ok false)
      | _ =>
        if alreadySet current value tolerance then (bus1, .ok true)
        else
          match write_config bus1 node_id info.id info.ty value with
          | (bus2, .error m) => (bus2, .error m)
          | (bus2, .ok _) =>
            match validate_config bus2 node_id info.id info.ty value tolerance with
            | (bus3, .error m) => (bus3, .error m)
            | (bus3, .ok r) => (bus3, .ok r)

/-- The for-loop of configure.setup_odrive: apply each setting in order
with set_odrive_parameter; a False return or an escaping exception stops
the loop at that setting. -/
def setup_loop (node_id : ℕ) (eps : Endpoints) :
    Bus → List (String × PyVal) → Bus × Except String Bool
  | bus, [] => (bus, .ok true)
  | bus, (path, value) :: rest =>
    match set_odrive_parameter bus node_id path value eps defaultTolerance with
    | (bus1, .ok true) => setup_loop node_id eps bus1 rest
    | (bus1, .ok false) => (bus1, .ok false)
    | (bus1, .error m) => (bus1, .error m)

/-- Embedding of configure.setup_odrive: run the settings loop; when
every setting succeeded, look up the reserved save endpoint and send the
persist write, returning True; a failed setting returns False; any
exception (unknown path, short payload, missing save endpoint) is caught
by the surrounding try/except and returns False. -/
def setup_odrive (bus : Bus) (node_id : ℕ) (settings : List (String × PyVal))
    (eps : Endpoints) : Bus × Bool :=
  match setup_loop node_id eps bus settings with
  | (bus1, .ok true) =>
    match lookupEndpoint eps pathSave with
    | Option.none => (bus1, false)
    | Option.some info => (save_config bus1 node_id info.id, true)
  | (bus1, .ok false) => (bus1, false)
  | (bus1, .error _) => (bus1, false)

/-- Observable report lines of configure.clear_errors. The noError event
carries no value because the printed line interpolates none: a None read
and a zero read print the identical text. -/
inductive ClearEvent where
  | errorFound (node_id : ℕ) (path : String) (value : PyVal)
  | errorCleared (node_id : ℕ) (path : String)
  | noError (node_id : ℕ) (path : String)
  | missing (path : String)
deriving DecidableEq, Repr

/-- Whether the first list occurs at the head of the second. -/
def startsList : List Char → List Char → Bool
  | [], _ => true
  | _ :: _, [] => false
  | c :: cs, d :: ds => c == d && startsList cs ds

/-- Whether the first list occurs contiguously anywhere in the second. -/
def hasSubList (sub : List Char) : List Char → Bool
  | [] => sub.isEmpty
  | c :: tl => startsList sub (c :: tl) || hasSubList sub tl

/-- Python substring membership: sub in hay. -/
def strContains (hay sub : String) : Bool :=
  hasSubList sub.toList hay.toList

/-- Processing of one entry of clear_errors' fixed endpoint list:
returns the evolved bus, the printed report events, and the message of
an escaping exception if one was raised (clear_errors has no try/except,
so such an exception aborts the remaining endpoints). -/
def clear_one (bus : Bus) (node_id : ℕ) (eps : Endpoints) (clear : Bool)
    (path : String) : Bus × List ClearEvent × Option String :=
  match lookupEndpoint eps path with
  | Option.none => (bus, [ClearEvent.missing path], Option.none)
  | Option.some info =>
    match read_config bus node_id info.id info.ty with
    | (bus1, .error m) => (bus1, [], Option.some m)
    | (bus1, .ok v) =>
      if pyTruthy v then
        if clear && strContains path activeErrorsKey then
          match write_config bus1 node_id info.id info.ty (.int 0) with
          | (bus2, .error m) =>
            (bus2, [ClearEvent.errorFound node_id path v], Option.some m)
          | (bus2, .ok _) =>
            (bus2, [ClearEvent.errorFound node_id path v,
                    ClearEvent.errorCleared node_id path], Option.none)
        else
          (bus1, [ClearEvent.errorFound node_id path v], Option.none)
      else
        (bus1, [ClearEvent.noError node_id path], Option.none)

/-- Embedding of configure.clear_errors: for each of the two fixed error
endpoint paths in order, read the error value and report it; a truthy
value is reported as an error and, when clear is set and the path
contains the active_errors substring, cleared by writing zero; a falsy
value (zero or a None non-response alike) is reported as no error. -/
def clear_errors (bus : Bus) (node_id : ℕ) (eps : Endpoints) (clear : Bool) :
    Bus × List ClearEvent × Option String :=
  match clear_one bus node_id eps clear pathActiveErrors with
  | (bus1, evs1, Option.some m) => (bus1, evs1, Option.some m)
  | (bus1, evs1, Option.none) =>
    match clear_one bus1 node_id eps clear pathDisarmReason with
    | (bus2, evs2, r) => (bus2, evs1 ++ evs2, r)

/-- Struct format string of the axis-state command payload. -/
def fmtI : String := "<I"

/-- Polling loop of calibrate.calibrate_motor. The fuel argument models
the number of one-second poll intervals the 15-second timeout admits;
each iteration reads the state endpoint once, stops with success when
the state equals 1 (IDLE), and otherwise logs the observed state and
sleeps. Returns the success flag and the observed state value of every
poll performed, in order. -/
def calibrate_wait (node_id state_id : ℕ) (state_ty : String) :
    Bus → ℕ → Bus × Except String (Bool × List PyVal)
  | bus, 0 => (bus, .ok (false, []))
  | bus, fuel + 1 =>
    match read_config bus node_id state_id state_ty with
    | (bus1, .error m) => (bus1, .error m)
    | (bus1, .ok st) =>
      if pyEq st (.int 1) then (bus1, .ok (true, [st]))
      else
        match calibrate_wait node_id state_id state_ty bus1 fuel with
        | (bus2, .error m) => (bus2, .error m)
        | (bus2, .ok (r, tl)) => (bus2, .ok (r, st :: tl))

/-- Embedding of calibrate.calibrate_motor: send the full-calibration
command (command id 0x07, uint32 value 3), look up the state endpoint,
and poll until IDLE or until the bounded timeout elapses; the
surrounding try/except turns any escaping exception (including a
missing state endpoint) into False. -/
def calibrate_motor (bus : Bus) (node_id : ℕ) (eps : Endpoints) (maxPolls : ℕ) :
    Bus × Bool × List PyVal :=
  let s := send_can_message bus node_id 0x07 fmtI [.int 3]
  match lookupEndpoint eps pathCurrentState with
  | Option.none => (s.1, false, [])
  | Option.some info =>
    match calibrate_wait node_id info.id info.ty s.1 maxPolls with
    | (bus1, .error _) => (bus1, false, [])
    | (bus1, .ok (r, seen)) => (bus1, r, seen)

/-- SDO read-request frame as read_config sends it for one endpoint. -/
def readReq (node_id endpoint_id : ℕ) : TxFrame :=
  ⟨encode_address node_id RXSDO, fmtBHB, [.int READ, .int endpoint_id, .int 0]⟩

/-- SDO write-request frame as write_config sends it. -/
def writeReq (node_id endpoint_id : ℕ) (fc : Char) (value : PyVal) : TxFrame :=
  ⟨encode_address node_id RXSDO, fmtBHBv fc, [.int WRITE, .int endpoint_id, .int 0, value]⟩

/-- Persist frame as save_config sends it: an SDO write request to the
save endpoint. -/
def saveReq (node_id save_endpoint_id : ℕ) : TxFrame :=
  ⟨encode_address node_id RXSDO, fmtBHB, [.int WRITE, .int save_endpoint_id, .int 0]⟩

/-- SDO response frame of a node with the given payload bytes. -/
def respFrame (node_id : ℕ) (payload : List ℕ) : RxFrame :=
  ⟨encode_address node_id TXSDO, payload⟩

/-- Response frame carrying a one-byte state code after the 4-byte SDO
header, as a node answers a read of its uint8 state endpoint. -/
def stateFrame (node_id code : ℕ) : RxFrame :=
  respFrame node_id [0, 0, 0, 0, code]

/-- Bus of a simulated node that answers the i-th state poll with the
i-th state code, with nothing else on the bus. -/
def busOfStates (node_id : ℕ) (codes : List ℕ) : Bus :=
  ⟨codes.map (fun c => [stateFrame node_id c]), [], []⟩

/-- Relation stating that bus1 is bus with some new frames appended to
the sent log, all satisfying P; the incoming side is unconstrained. -/
def SentOnly (bus bus1 : Bus) (P : TxFrame → Prop) : Prop :=
  ∃ l, bus1.sent = bus.sent ++ l ∧ ∀ f ∈ l, P f

/-- One receive window together with the value an SDO read of the given
endpoint obtains from it: either no correlated frame arrives and the
read yields None, or the first correlated frame's payload unpacks, under
the endpoint's declared type, to the value. -/
def ReadsTo (batch : List RxFrame) (node_id : ℕ) (info : EndpointInfo) (v : PyVal) : Prop :=
  (scanForId batch (encode_address node_id TXSDO) = Option.none ∧ v = PyVal.none) ∨
  (∃ f fc, scanForId batch (encode_address node_id TXSDO) = Option.some f ∧
    format_lookup info.ty = Option.some fc ∧ unpack_from fc f.data = .ok v)

/-- One already-satisfied setting of a configurator run: its path and
target value, the registry entry for the path, the response payload its
read receives, and the current value that payload decodes to. -/
structure SettingRow where
  path : String
  value : PyVal
  info : EndpointInfo
  payload : List ℕ
  readVal : PyVal
deriving Repr

/-- Well-formedness of a SettingRow within a registry: the path resolves
to the row's endpoint info, the payload decodes under the declared type
to the row's current value, the node answered (the value is not None),
and the current value matches the target under the already-set rule. -/
def RowOk (eps : Endpoints) (r : SettingRow) : Prop :=
  lookupEndpoint eps r.path = Option.some r.info ∧
  (∃ fc, format_lookup r.info.ty = Option.some fc ∧
    unpack_from fc r.payload = .ok r.readVal) ∧
  r.readVal ≠ PyVal.none ∧
  alreadySet r.readVal r.value defaultTolerance = true

/-- Bus of a node whose stored values already are the rows' read values:
the i-th receive window delivers the i-th row's response payload. -/
def busOfRows (node_id : ℕ) (rows : List SettingRow) : Bus :=
  ⟨rows.map (fun r => [respFrame node_id r.payload]), [], []⟩

theorem shiftRight_encode (n c : ℕ) (h : c < 32) : (n <<< 5 ||| c) >>> 5 = n := by
  apply Nat.eq_of_testBit_eq
  intro i
  rw [Nat.testBit_shiftRight, Nat.testBit_lor, Nat.testBit_shiftLeft]
  have hc : c.testBit (5 + i) = false := by
    apply Nat.testBit_lt_two_pow
    calc c < 32 := h
    _ ≤ 2 ^ (5 + i) := by
      have h32 : (32 : ℕ) = 2 ^ 5 := by norm_num
      rw [h32]
      exact Nat.pow_le_pow_right (by norm_num) (by omega)
  rw [hc]
  simp only [Bool.or_false]
  have h5 : 5 + i ≥ 5 := by omega
  simp [h5, Nat.add_sub_cancel_left]

theorem mod_encode (n c : ℕ) (h : c < 32) : (n <<< 5 ||| c) % 32 = c := by
  have h32 : (32 : ℕ) = 2 ^ 5 := by norm_num
  rw [h32]
  apply Nat.eq_of_testBit_eq
  intro i
  rw [Nat.testBit_mod_two_pow, Nat.testBit_lor, Nat.testBit_shiftLeft]
  by_cases hi : i < 5
  · have hni : ¬i ≥ 5 := by omega
    simp [hi, hni]
  · have hge : i ≥ 5 := by omega
    have hc : c.testBit i = false := by
      apply Nat.testBit_lt_two_pow
      have hp : (2 : ℕ) ^ 5 ≤ 2 ^ i := Nat.pow_le_pow_right (by norm_num) hge
      omega
    simp [hi, hc]

/-- C5: for every node id and every command id in the 5-bit command
space (0 to 31), the frame address produced by the encoder used in
send_can_message is node_id << 5 | command_id, and decoding is its exact
inverse: the (node, command) pair is recovered, the node id by shifting
the address right by 5. -/
theorem c5_address_codec_roundtrip (node_id command_id : ℕ) (h : command_id < 32) :
    decode_address (encode_address node_id command_id) = (node_id, command_id) ∧
    extract_node_id (encode_address node_id command_id) = node_id ∧
    encode_address node_id command_id = node_id <<< 5 ||| command_id := by
  have h1 : extract_node_id (encode_address node_id command_id) = node_id :=
    shiftRight_encode node_id command_id h
  have h2 : decode_command (encode_address node_id command_id) = command_id :=
    mod_encode node_id command_id h
  exact ⟨by rw [decode_address, h1, h2], h1, rfl⟩

/-- Witness for C5 at node 3, command 7. -/
theorem c5_address_codec_roundtrip_witness :
    7 < 32 ∧
    (decode_address (encode_address 3 7) = (3, 7) ∧
      extract_node_id (encode_address 3 7) = 3 ∧
      encode_address 3 7 = 3 <<< 5 ||| 7) :=
  ⟨by decide, c5_address_codec_roundtrip 3 7 (by decide)⟩

theorem discover_loop_toFinset (l : List RxFrame) (s : Finset ℕ) :
    discover_loop l s =
      s ∪ (l.map (fun f => extract_node_id f.arbitration_id)).toFinset := by
  induction l generalizing s with
  | nil => simp [discover_loop]
  | cons f tl ih =>
    rw [discover_loop, ih]
    ext a
    simp

/-- C6: for every sequence of frames arriving during the discovery
window, discovery returns exactly the set of node ids decoded from the
observed arbitration ids, duplicates collapsed; four frames from node
addresses 2, 5, 5, 9 yield exactly the set containing 2, 5 and 9, and an
empty window yields the empty set, not an error. -/
theorem c6_discover_node_ids_distinct :
    (∀ window : List RxFrame,
      discover_node_ids window =
        (window.map (fun f => extract_node_id f.arbitration_id)).toFinset) ∧
    discover_node_ids [⟨65, []⟩, ⟨160, []⟩, ⟨161, []⟩, ⟨295, []⟩] = {2, 5, 9} ∧
    extract_node_id 65 = 2 ∧ extract_node_id 160 = 5 ∧
    extract_node_id 161 = 5 ∧ extract_node_id 295 = 9 ∧
    discover_node_ids [] = (∅ : Finset ℕ) := by
  refine ⟨fun window => ?_, by decide, by decide, by decide, by decide, by decide, by decide⟩
  rw [discover_node_ids, discover_loop_toFinset]
  simp

theorem send_eval (bus : Bus) (n c : ℕ) (fmt : String) (args : List PyVal) :
    send_can_message bus n c fmt args =
      (⟨bus.incoming,
        bus.sent ++
          (if bus.sendOk.headD true then [⟨encode_address n c, fmt, args⟩] else []),
        bus.sendOk.tail⟩,
        bus.sendOk.headD true) := by
  obtain ⟨inc, sent, ok⟩ := bus
  rcases ok with _ | ⟨b, rest⟩
  · rfl
  · cases b <;> simp [send_can_message]

theorem receive_eval (bus : Bus) (e : ℕ) :
    receive_can_message bus e =
      (⟨bus.incoming.tail, bus.sent, bus.sendOk⟩,
        scanForId (bus.incoming.headD []) e) := by
  obtain ⟨inc, sent, ok⟩ := bus
  rcases inc with _ | ⟨b, rest⟩ <;> rfl

theorem read_config_eval (bus : Bus) (n e : ℕ) (t : String) :
    read_config bus n e t =
      (⟨bus.incoming.tail,
        bus.sent ++ (if bus.sendOk.headD true then [readReq n e] else []),
        bus.sendOk.tail⟩,
        sdoReadResult t (scanForId (bus.incoming.headD []) (encode_address n TXSDO))) := by
  simp only [read_config, send_eval, receive_eval, readReq]

/-- C2 (amended): for every bus, node, endpoint id and type, read_config
returns None, not an exception and not a zero, when no correlated
response frame arrives within the bounded receive window; but when a
correlated frame does arrive with a payload shorter than the 4-byte
header plus the declared type width, struct unpacking raises
struct.error, which escapes read_config instead of yielding None. -/
theorem c2_read_config_timeout_none (bus : Bus) (node_id endpoint_id : ℕ)
    (endpoint_type : String) :
    (scanForId (bus.incoming.headD []) (encode_address node_id TXSDO) = Option.none →
      (read_config bus node_id endpoint_id endpoint_type).2 = .ok PyVal.none) ∧
    (∀ f fc,
      scanForId (bus.incoming.headD []) (encode_address node_id TXSDO) = Option.some f →
      format_lookup endpoint_type = Option.some fc →
      f.data.length < 4 + typeWidth fc →
      (read_config bus node_id endpoint_id endpoint_type).2 = .error structError) := by
  constructor
  · intro h
    rw [read_config_eval]
    simp only [h, sdoReadResult]
  · intro f fc hf hfc hlen
    rw [read_config_eval]
    simp only [hf, sdoReadResult, hfc]
    simp [unpack_from, hlen]

/-- C2 counterexample: a correlated response frame whose 3-byte payload
is shorter than the header plus the 4-byte uint32 width makes
read_config raise struct.error; it does not return None and it does not
return a default zero, contrary to the claim that a malformed short
payload is treated identically to a timeout. -/
theorem c2_short_payload_raises :
    (read_config ⟨[[⟨37, [0, 0, 0]⟩]], [], []⟩ 1 5 "uint32").2 = .error structError ∧
    (read_config ⟨[[⟨37, [0, 0, 0]⟩]], [], []⟩ 1 5 "uint32").2 ≠ .ok PyVal.none ∧
    (read_config ⟨[[⟨37, [0, 0, 0]⟩]], [], []⟩ 1 5 "uint32").2 ≠ .ok (.int 0) := by
  exact ⟨by decide, by decide, by decide⟩

/-- Witness for C2: an empty window yields None for a uint32 read, and a
correlated 3-byte response under the float type raises struct.error. -/
theorem c2_read_config_timeout_none_witness :
    (read_config ⟨[], [], []⟩ 1 5 "uint32").2 = .ok PyVal.none ∧
    (read_config ⟨[[⟨37, [0, 0, 0]⟩]], [], []⟩ 1 6 "float").2 = .error structError :=
  ⟨(c2_read_config_timeout_none ⟨[], [], []⟩ 1 5 "uint32").1 (by decide),
   (c2_read_config_timeout_none ⟨[[⟨37, [0, 0, 0]⟩]], [], []⟩ 1 6 "float").2
     ⟨37, [0, 0, 0]⟩ 'f' (by decide) (by decide) (by decide)⟩

/-- C7 (amended): the transport helper send_can_message does report a
transport-level send error as a false boolean result (and then does not
put the frame on the bus), but write_config discards that boolean and
returns Python None for every known type, whether or not the physical
send succeeded; a transport error is therefore not surfaced as a
failure result by write_config itself. -/
theorem c7_write_config_discards_send (bus : Bus) (node_id endpoint_id : ℕ)
    (endpoint_type : String) (value : PyVal) (fc : Char)
    (hty : format_lookup endpoint_type = Option.some fc) :
    (write_config bus node_id endpoint_id endpoint_type value).2 = .ok PyVal.none ∧
    (send_can_message bus node_id RXSDO (fmtBHBv fc)
        [.int WRITE, .int endpoint_id, .int 0, value]).2 = bus.sendOk.headD true ∧
    (bus.sendOk.headD true = false →
      (send_can_message bus node_id RXSDO (fmtBHBv fc)
          [.int WRITE, .int endpoint_id, .int 0, value]).1.sent = bus.sent) := by
  refine ⟨?_, ?_, ?_⟩
  · simp [write_config, hty]
  · obtain ⟨inc, sent, ok⟩ := bus
    rcases ok with _ | ⟨b, rest⟩
    · rfl
    · cases b <;> rfl
  · intro h
    obtain ⟨inc, sent, ok⟩ := bus
    rcases ok with _ | ⟨b, rest⟩
    · simp at h
    · cases b
      · rfl
      · simp at h

/-- C7 counterexample: on a bus whose physical send fails, write_config
returns Python None, exactly as it does on a bus whose send succeeds
(and the failed frame is indeed absent from the bus), so its return
value does not distinguish success from transport failure. -/
theorem c7_write_config_same_on_failure :
    (write_config ⟨[], [], [false]⟩ 1 5 "uint32" (.int 7)).2 = .ok PyVal.none ∧
    (write_config ⟨[], [], [true]⟩ 1 5 "uint32" (.int 7)).2 = .ok PyVal.none ∧
    (write_config ⟨[], [], [false]⟩ 1 5 "uint32" (.int 7)).1.sent = [] ∧
    (write_config ⟨[], [], [true]⟩ 1 5 "uint32" (.int 7)).1.sent =
      [writeReq 1 5 'I' (.int 7)] := by
  exact ⟨by decide, by decide, by decide, by decide⟩

/-- Witness for C7 with the uint32 type on a bus whose send fails. -/
theorem c7_write_config_discards_send_witness :
    (write_config ⟨[], [], [false]⟩ 2 9 "uint32" (.int 3)).2 = .ok PyVal.none ∧
    (send_can_message ⟨[], [], [false]⟩ 2 RXSDO (fmtBHBv 'I')
        [.int WRITE, .int 9, .int 0, .int 3]).2 =
      ((⟨[], [], [false]⟩ : Bus)).sendOk.headD true ∧
    (((⟨[], [], [false]⟩ : Bus)).sendOk.headD true = false →
      (send_can_message ⟨[], [], [false]⟩ 2 RXSDO (fmtBHBv 'I')
          [.int WRITE, .int 9, .int 0, .int 3]).1.sent =
        ((⟨[], [], [false]⟩ : Bus)).sent) :=
  c7_write_config_discards_send ⟨[], [], [false]⟩ 2 9 "uint32" (.int 3) 'I' (by decide)

/-- C3: validate_config performs a read and compares: a None read makes
validation return false; a float expected value succeeds exactly when
the absolute difference between actual and expected is within the
tolerance; every other expected value requires Python equality. The two
closing conjuncts instantiate the spec's example: the closest float32 to
1.005 (payload bytes 215 163 128 63) is accepted against expected 1.0
with tolerance 0.01, and the closest float32 to 1.02 (payload bytes
92 143 130 63) is rejected. -/
theorem c3_validate_config_tolerance (bus : Bus) (node_id endpoint_id : ℕ)
    (endpoint_type : String) (expected : PyVal) (tol : ℚ) :
    (∀ bus1 v, read_config bus node_id endpoint_id endpoint_type = (bus1, .ok v) →
      validate_config bus node_id endpoint_id endpoint_type expected tol =
        (bus1, .ok
          (if v = PyVal.none then false
           else if expected.isFloat then decide (|v.toRat - expected.toRat| ≤ tol)
           else pyEq v expected))) ∧
    (validate_config ⟨[[⟨37, [0, 0, 0, 0, 215, 163, 128, 63]⟩]], [], []⟩ 1 5
        "float" (.float 1) (1 / 100)).2 = .ok true ∧
    (validate_config ⟨[[⟨37, [0, 0, 0, 0, 92, 143, 130, 63]⟩]], [], []⟩ 1 5
        "float" (.float 1) (1 / 100)).2 = .ok false := by
  have hmain : ∀ (bus : Bus) (node_id endpoint_id : ℕ) (endpoint_type : String)
      (expected : PyVal) (tol : ℚ) (bus1 : Bus) (v : PyVal),
      read_config bus node_id endpoint_id endpoint_type = (bus1, .ok v) →
      validate_config bus node_id endpoint_id endpoint_type expected tol =
        (bus1, .ok
          (if v = PyVal.none then false
           else if expected.isFloat then decide (|v.toRat - expected.toRat| ≤ tol)
           else pyEq v expected)) := by
    intro bus n e t expected tol bus1 v h
    rw [validate_config, h]
    cases v <;> by_cases hf : expected.isFloat <;> simp [hf]
  refine ⟨hmain bus node_id endpoint_id endpoint_type expected tol, ?_, ?_⟩
  · have h2 : read_config ⟨[[⟨37, [0, 0, 0, 0, 215, 163, 128, 63]⟩]], [], []⟩ 1 5 "float"
        = (⟨[], [readReq 1 5], []⟩, .ok (.float (decodeFloat32 1065395159))) := by
      rw [read_config_eval]
      rfl
    rw [hmain _ 1 5 "float" (.float 1) (1 / 100) _ _ h2]
    have hd : decodeFloat32 1065395159 = 8430551 / 8388608 := by
      rw [decodeFloat32]
      norm_num
    simp [hd, PyVal.isFloat, PyVal.toRat]
    rw [abs_le]
    constructor <;> norm_num
  · have h3 : read_config ⟨[[⟨37, [0, 0, 0, 0, 92, 143, 130, 63]⟩]], [], []⟩ 1 5 "float"
        = (⟨[], [readReq 1 5], []⟩, .ok (.float (decodeFloat32 1065520988))) := by
      rw [read_config_eval]
      rfl
    rw [hmain _ 1 5 "float" (.float 1) (1 / 100) _ _ h3]
    have hd : decodeFloat32 1065520988 = 2139095 / 2097152 := by
      rw [decodeFloat32]
      norm_num
    simp [hd, PyVal.isFloat, PyVal.toRat]
    rw [abs_of_nonneg (by norm_num)]
    norm_num

/-- Witness for C3 at a uint32 endpoint whose read returns 5, validated
against the equal expected integer 5. -/
theorem c3_validate_config_tolerance_witness :
    validate_config ⟨[[⟨37, [0, 0, 0, 0, 5, 0, 0, 0]⟩]], [], []⟩ 1 6 "uint32"
        (.int 5) defaultTolerance =
      (⟨[], [readReq 1 6], []⟩,
        .ok (if PyVal.int 5 = PyVal.none then false
          else if (PyVal.int 5).isFloat then
            decide (|(PyVal.int 5).toRat - (PyVal.int 5).toRat| ≤ defaultTolerance)
          else pyEq (.int 5) (.int 5))) :=
  (c3_validate_config_tolerance ⟨[[⟨37, [0, 0, 0, 0, 5, 0, 0, 0]⟩]], [], []⟩ 1 6
      "uint32" (.int 5) defaultTolerance).1 ⟨[], [readReq 1 6], []⟩ (.int 5) (by decide)

theorem pyEq_int (a b : ℤ) : pyEq (.int a) (.int b) = (a == b) := by
  simp only [pyEq, PyVal.toRat]
  by_cases h : a = b
  · simp [h]
  · have hq : ¬ ((a : ℚ) = (b : ℚ)) := by
      simpa [Int.cast_inj] using h
    simp [h, hq]

theorem read_state_step (node sid c : ℕ) (rest : List (List RxFrame))
    (sent0 : List TxFrame) (hc : c < 256) :
    read_config ⟨[stateFrame node c] :: rest, sent0, []⟩ node sid "uint8"
      = (⟨rest, sent0 ++ [readReq node sid], []⟩, .ok (.int c)) := by
  rw [read_config_eval]
  simp [stateFrame, respFrame, scanForId, sdoReadResult, format_lookup, unpack_from,
    typeWidth, decodeVal, bytesToNatLE, Nat.mod_eq_of_lt hc]

theorem calibrate_wait_success (node sid : ℕ) :
    ∀ (i : ℕ) (codes : List ℕ) (fuel : ℕ) (sent0 : List TxFrame),
      i < fuel → (∀ c ∈ codes, c < 256) →
      codes[i]? = Option.some 1 → (∀ j, j < i → codes[j]? ≠ Option.some 1) →
      calibrate_wait node sid "uint8"
          ⟨codes.map (fun c => [stateFrame node c]), sent0, []⟩ fuel
        = (⟨(codes.drop (i + 1)).map (fun c => [stateFrame node c]),
            sent0 ++ List.replicate (i + 1) (readReq node sid), []⟩,
          .ok (true, (codes.take (i + 1)).map (fun c => PyVal.int c))) := by
  intro i
  induction i with
  | zero =>
    intro codes fuel sent0 hfuel hcodes h1 _
    rcases codes with _ | ⟨c, tl⟩
    · simp at h1
    · have hc1 : c = 1 := by simpa using h1
      subst hc1
      rcases fuel with _ | f
      · omega
      · simp only [List.map_cons, calibrate_wait]
        rw [read_state_step node sid 1 (tl.map (fun c => [stateFrame node c])) sent0
          (by omega)]
        simp [pyEq_int]
  | succ i ih =>
    intro codes fuel sent0 hfuel hcodes h1 hj
    rcases codes with _ | ⟨c, tl⟩
    · simp at h1
    · have hc : c < 256 := hcodes c (by simp)
      have hcne : c ≠ 1 := by
        intro hceq
        exact hj 0 (by omega) (by simp [hceq])
      rcases fuel with _ | f
      · omega
      · simp only [List.map_cons, calibrate_wait]
        rw [read_state_step node sid c (tl.map (fun c => [stateFrame node c])) sent0 hc]
        have hne : pyEq (.int c) (.int 1) = false := by
          rw [pyEq_int]
          have hz : ¬ ((c : ℤ) = 1) := by omega
          simp [hz]
        dsimp only
        rw [hne]
        simp only [Bool.false_eq_true, if_false]
        rw [ih tl f (sent0 ++ [readReq node sid]) (by omega)
          (fun x hx => hcodes x (by simp [hx])) (by simpa using h1)
          (fun j hjlt => by simpa using hj (j + 1) (by omega))]
        simp [List.replicate_succ, List.append_assoc]

theorem calibrate_wait_timeout (node sid : ℕ) :
    ∀ (fuel : ℕ) (codes : List ℕ) (sent0 : List TxFrame),
      fuel ≤ codes.length → (∀ c ∈ codes, c < 256) →
      (∀ j, j < fuel → codes[j]? ≠ Option.some 1) →
      calibrate_wait node sid "uint8"
          ⟨codes.map (fun c => [stateFrame node c]), sent0, []⟩ fuel
        = (⟨(codes.drop fuel).map (fun c => [stateFrame node c]),
            sent0 ++ List.replicate fuel (readReq node sid), []⟩,
          .ok (false, (codes.take fuel).map (fun c => PyVal.int c))) := by
  intro fuel
  induction fuel with
  | zero =>
    intro codes sent0 _ _ _
    simp [calibrate_wait]
  | succ f ih =>
    intro codes sent0 hlen hcodes hj
    rcases codes with _ | ⟨c, tl⟩
    · simp at hlen
    · have hc : c < 256 := hcodes c (by simp)
      have hcne : c ≠ 1 := by
        intro hceq
        exact hj 0 (by omega) (by simp [hceq])
      simp only [List.map_cons, calibrate_wait]
      rw [read_state_step node sid c (tl.map (fun c => [stateFrame node c])) sent0 hc]
      have hne : pyEq (.int c) (.int 1) = false := by
        rw [pyEq_int]
        have hz : ¬ ((c : ℤ) = 1) := by omega
        simp [hz]
      dsimp only
      rw [hne]
      simp only [Bool.false_eq_true, if_false]
      rw [ih tl (sent0 ++ [readReq node sid]) (by simpa using hlen)
        (fun x hx => hcodes x (by simp [hx]))
        (fun j hjlt => by simpa using hj (j + 1) (by omega))]
      simp [List.replicate_succ, List.append_assoc]

/-- C4: the calibration wait of calibrate_motor polls the state endpoint
once per fixed sleep interval within the bounded poll budget that the
15-second timeout admits. If the i-th poll is the first to observe the
IDLE code 1, polling stops with success after i+1 polls (so a node
reporting a calibrating state for 3 polls and then IDLE succeeds after
about 3 intervals, fourth conjunct); the per-poll observation list is
returned. If the budget elapses without IDLE being observed, polling
stops with failure and the observation list reports every polled state,
its last entry being the last-seen state code. -/
theorem c4_calibrate_motor_poll (node_id : ℕ) (eps : Endpoints) (info : EndpointInfo)
    (codes : List ℕ) (maxPolls : ℕ)
    (heps : lookupEndpoint eps pathCurrentState = Option.some info)
    (hty : info.ty = "uint8")
    (hcodes : ∀ c ∈ codes, c < 256) :
    (∀ i, i < maxPolls → codes[i]? = Option.some 1 →
      (∀ j, j < i → codes[j]? ≠ Option.some 1) →
      (calibrate_motor (busOfStates node_id codes) node_id eps maxPolls).2
        = (true, (codes.take (i + 1)).map (fun c => PyVal.int c))) ∧
    (maxPolls ≤ codes.length →
      (∀ j, j < maxPolls → codes[j]? ≠ Option.some 1) →
      (calibrate_motor (busOfStates node_id codes) node_id eps maxPolls).2
        = (false, (codes.take maxPolls).map (fun c => PyVal.int c))) ∧
    (calibrate_motor (busOfStates 1 [4, 4, 4, 1]) 1
        [(pathCurrentState, ⟨3, "uint8"⟩)] 15).2
      = (true, [.int 4, .int 4, .int 4, .int 1]) := by
  obtain ⟨sid, ty⟩ := info
  simp only at hty
  subst hty
  refine ⟨?_, ?_, by decide⟩
  · intro i hi h1 hj
    rw [calibrate_motor, send_eval]
    simp only [busOfStates, heps, List.headD_nil, List.tail_nil, List.nil_append,
      if_true, eq_self_iff_true]
    rw [calibrate_wait_success node_id sid i codes maxPolls
      [⟨encode_address node_id 0x07, fmtI, [.int 3]⟩] hi hcodes h1 hj]
  · intro hlen hj
    rw [calibrate_motor, send_eval]
    simp only [busOfStates, heps, List.headD_nil, List.tail_nil, List.nil_append,
      if_true, eq_self_iff_true]
    rw [calibrate_wait_timeout node_id sid maxPolls codes
      [⟨encode_address node_id 0x07, fmtI, [.int 3]⟩] hlen hcodes hj]

/-- Witness for C4: a node reporting state 4 for three polls and then
IDLE, under a 15-poll budget, at the uint8 state endpoint with id 3. -/
theorem c4_calibrate_motor_poll_witness :
    (calibrate_motor (busOfStates 1 [4, 4, 4, 1]) 1
        [(pathCurrentState, ⟨3, "uint8"⟩)] 15).2
      = (true, ([4, 4, 4, 1].take (3 + 1)).map (fun c => PyVal.int c)) :=
  (c4_calibrate_motor_poll 1 [(pathCurrentState, ⟨3, "uint8"⟩)] ⟨3, "uint8"⟩
      [4, 4, 4, 1] 15 (by decide) (by decide) (by decide)).1 3 (by decide)
    (by decide) (fun j hjlt => by interval_cases j <;> decide)

theorem set_param_skip (node : ℕ) (eps : Endpoints) (r : SettingRow)
    (hrow : RowOk eps r) (rest : List (List RxFrame)) (sent0 : List TxFrame) :
    set_odrive_parameter ⟨[respFrame node r.payload] :: rest, sent0, []⟩
        node r.path r.value eps defaultTolerance
      = (⟨rest, sent0 ++ [readReq node r.info.id], []⟩, .ok true) := by
  obtain ⟨hlook, ⟨fc, hfc, hunp⟩, hne, hmatch⟩ := hrow
  rw [set_odrive_parameter, hlook]
  dsimp only
  have hread : read_config ⟨[respFrame node r.payload] :: rest, sent0, []⟩
      node r.info.id r.info.ty
      = (⟨rest, sent0 ++ [readReq node r.info.id], []⟩, .ok r.readVal) := by
    rw [read_config_eval]
    simp [respFrame, scanForId, sdoReadResult, hfc, hunp]
  rw [hread]
  dsimp only
  obtain ⟨v, hv⟩ : ∃ v, r.readVal = v := ⟨_, rfl⟩
  rw [hv] at hmatch hne ⊢
  cases v with
  | none => exact absurd rfl hne
  | bool b => simp [hmatch]
  | int n => simp [hmatch]
  | float q => simp [hmatch]

theorem setup_loop_skip (node : ℕ) (eps : Endpoints) :
    ∀ (rows : List SettingRow) (sent0 : List TxFrame),
      (∀ r ∈ rows, RowOk eps r) →
      setup_loop node eps ⟨rows.map (fun r => [respFrame node r.payload]), sent0, []⟩
          (rows.map (fun r => (r.path, r.value)))
        = (⟨[], sent0 ++ rows.map (fun r => readReq node r.info.id), []⟩, .ok true) := by
  intro rows
  induction rows with
  | nil =>
    intro sent0 _
    simp [setup_loop]
  | cons r tl ih =>
    intro sent0 hrows
    simp only [List.map_cons, setup_loop]
    rw [set_param_skip node eps r (hrows r (by simp))
      (tl.map (fun x => [respFrame node x.payload])) sent0]
    dsimp only
    rw [ih (sent0 ++ [readReq node r.info.id]) (fun x hx => hrows x (by simp [hx]))]
    simp [List.append_assoc]

/-- C8 (amended): applying a settings list to a node whose stored values
already match every target under the already-set rule makes the run take
the skip branch for every setting and still report overall success; the
run sends exactly one read request per setting and no write frame for
any setting endpoint, but it does still send the persist command, a
write-opcode frame to the save_configuration endpoint, at the end (so
the second run of an identical configuration is a no-op on the settings
yet not entirely free of write frames). -/
theorem c8_second_run_skips (node : ℕ) (eps : Endpoints) (rows : List SettingRow)
    (sinfo : EndpointInfo)
    (hrows : ∀ r ∈ rows, RowOk eps r)
    (hsave : lookupEndpoint eps pathSave = Option.some sinfo) :
    setup_odrive (busOfRows node rows) node (rows.map (fun r => (r.path, r.value))) eps
      = (⟨[], rows.map (fun r => readReq node r.info.id) ++ [saveReq node sinfo.id], []⟩,
        true) := by
  rw [setup_odrive, busOfRows]
  rw [setup_loop_skip node eps rows [] hrows]
  dsimp only
  rw [hsave]
  dsimp only
  rw [save_config, send_eval]
  simp [saveReq]

/-- C8 counterexample: a run over a node whose stored value already
matches the single setting reports success, yet a write-opcode frame
(the persist write to the save_configuration endpoint) is sent during
the run, refuting the claim that no write frames are sent. -/
theorem c8_persist_write_on_second_run :
    (setup_odrive ⟨[[respFrame 1 [0, 0, 0, 0, 5, 0, 0, 0]]], [], []⟩ 1 [("p", .int 5)]
        [("p", ⟨7, "uint32"⟩), (pathSave, ⟨9, "uint32"⟩)]).2 = true ∧
    (∃ f ∈ (setup_odrive ⟨[[respFrame 1 [0, 0, 0, 0, 5, 0, 0, 0]]], [], []⟩ 1
        [("p", .int 5)] [("p", ⟨7, "uint32"⟩), (pathSave, ⟨9, "uint32"⟩)]).1.sent,
      f.args.headD PyVal.none = .int WRITE) := by
  constructor
  · decide
  · decide

/-- Witness for C8: one uint32 setting whose stored value 5 equals its
target; the run sends one read request and the persist write only. -/
theorem c8_second_run_skips_witness :
    setup_odrive
        (busOfRows 1 [⟨"p", .int 5, ⟨7, "uint32"⟩, [0, 0, 0, 0, 5, 0, 0, 0], .int 5⟩])
        1 [("p", .int 5)] [("p", ⟨7, "uint32"⟩), (pathSave, ⟨9, "uint32"⟩)]
      = (⟨[], [readReq 1 7, saveReq 1 9], []⟩, true) :=
  c8_second_run_skips 1 [("p", ⟨7, "uint32"⟩), (pathSave, ⟨9, "uint32"⟩)]
    [⟨"p", .int 5, ⟨7, "uint32"⟩, [0, 0, 0, 0, 5, 0, 0, 0], .int 5⟩] ⟨9, "uint32"⟩
    (fun r hr => by
      simp at hr
      subst hr
      exact ⟨by decide, ⟨'I', by decide, by decide⟩, by decide, by decide⟩)
    (by decide)

theorem sent_extends_trans {b0 b1 b2 : Bus}
    (h1 : ∃ l, b1.sent = b0.sent ++ l) (h2 : ∃ l, b2.sent = b1.sent ++ l) :
    ∃ l, b2.sent = b0.sent ++ l := by
  obtain ⟨l1, h1⟩ := h1
  obtain ⟨l2, h2⟩ := h2
  exact ⟨l1 ++ l2, by rw [h2, h1, List.append_assoc]⟩

theorem read_sent_extends (bus : Bus) (n e : ℕ) (t : String) :
    ∃ l, (read_config bus n e t).1.sent = bus.sent ++ l := by
  rw [read_config_eval]
  exact ⟨_, rfl⟩

theorem write_sent_extends (bus : Bus) (n e : ℕ) (t : String) (v : PyVal) :
    ∃ l, (write_config bus n e t v).1.sent = bus.sent ++ l := by
  rw [write_config]
  cases format_lookup t with
  | none => exact ⟨[], by simp⟩
  | some fc =>
    dsimp only
    rw [send_eval]
    exact ⟨_, rfl⟩

theorem validate_sent_extends (bus : Bus) (n e : ℕ) (t : String) (exp : PyVal)
    (tol : ℚ) :
    ∃ l, (validate_config bus n e t exp tol).1.sent = bus.sent ++ l := by
  rw [validate_config, read_config_eval]
  cases sdoReadResult t (scanForId (bus.incoming.headD []) (encode_address n TXSDO)) with
  | error m => exact ⟨_, rfl⟩
  | ok v =>
    dsimp only
    cases v with
    | none => exact ⟨_, rfl⟩
    | bool b =>
      dsimp only
      by_cases hf : exp.isFloat = true
      · rw [if_pos hf]; exact ⟨_, rfl⟩
      · rw [if_neg hf]; exact ⟨_, rfl⟩
    | int m =>
      dsimp only
      by_cases hf : exp.isFloat = true
      · rw [if_pos hf]; exact ⟨_, rfl⟩
      · rw [if_neg hf]; exact ⟨_, rfl⟩
    | float q =>
      dsimp only
      by_cases hf : exp.isFloat = true
      · rw [if_pos hf]; exact ⟨_, rfl⟩
      · rw [if_neg hf]; exact ⟨_, rfl⟩

theorem set_param_after_read_extends (bus1 : Bus) (n : ℕ) (info : EndpointInfo)
    (v : PyVal) (tol : ℚ) (cond : Bool) :
    ∃ l, (if cond = true then (bus1, Except.ok true)
      else
        match write_config bus1 n info.id info.ty v with
        | (bus2, .error m) => (bus2, .error m)
        | (bus2, .ok _) =>
          match validate_config bus2 n info.id info.ty v tol with
          | (bus3, .error m) => (bus3, .error m)
          | (bus3, .ok r) => (bus3, .ok r)).1.sent = bus1.sent ++ l := by
  by_cases hc : cond = true
  · rw [if_pos hc]
    exact ⟨[], by simp⟩
  · rw [if_neg hc]
    rcases hw : write_config bus1 n info.id info.ty v with ⟨bus2, wres⟩
    have h2 : ∃ l, bus2.sent = bus1.sent ++ l := by
      have hx := write_sent_extends bus1 n info.id info.ty v
      rw [hw] at hx
      exact hx
    cases wres with
    | error m => exact h2
    | ok u =>
      dsimp only
      rcases hv : validate_config bus2 n info.id info.ty v tol with ⟨bus3, vres⟩
      have h3 : ∃ l, bus3.sent = bus2.sent ++ l := by
        have hx := validate_sent_extends bus2 n info.id info.ty v tol
        rw [hv] at hx
        exact hx
      cases vres with
      | error m => exact sent_extends_trans h2 h3
      | ok r => exact sent_extends_trans h2 h3

theorem set_param_sent_extends (bus : Bus) (n : ℕ) (path : String) (v : PyVal)
    (eps : Endpoints) (tol : ℚ) :
    ∃ l, (set_odrive_parameter bus n path v eps tol).1.sent = bus.sent ++ l := by
  rw [set_odrive_parameter]
  cases lookupEndpoint eps path with
  | none => exact ⟨[], by simp⟩
  | some info =>
    dsimp only
    rcases hr : read_config bus n info.id info.ty with ⟨bus1, res⟩
    have h1 : ∃ l, bus1.sent = bus.sent ++ l := by
      have hx := read_sent_extends bus n info.id info.ty
      rw [hr] at hx
      exact hx
    cases res with
    | error m => exact h1
    | ok current =>
      dsimp only
      cases current with
      | none => exact h1
      | bool b =>
        exact sent_extends_trans h1 (set_param_after_read_extends bus1 n info v tol _)
      | int m =>
        exact sent_extends_trans h1 (set_param_after_read_extends bus1 n info v tol _)
      | float q =>
        exact sent_extends_trans h1 (set_param_after_read_extends bus1 n info v tol _)

theorem setup_loop_sent_extends (node_id : ℕ) (eps : Endpoints) :
    ∀ (settings : List (String × PyVal)) (bus : Bus),
      ∃ l, (setup_loop node_id eps bus settings).1.sent = bus.sent ++ l := by
  intro settings
  induction settings with
  | nil =>
    intro bus
    exact ⟨[], by simp [setup_loop]⟩
  | cons s rest ih =>
    intro bus
    obtain ⟨p, v⟩ := s
    simp only [setup_loop]
    rcases hset : set_odrive_parameter bus node_id p v eps defaultTolerance with ⟨bus1, res⟩
    have h1 : ∃ l, bus1.sent = bus.sent ++ l := by
      have hx := set_param_sent_extends bus node_id p v eps defaultTolerance
      rw [hset] at hx
      exact hx
    cases res with
    | error m => exact h1
    | ok b =>
      cases b
      · exact h1
      · exact sent_extends_trans h1 (ih bus1)

theorem save_sent_extends (bus : Bus) (n sid : ℕ) :
    ∃ l, (save_config bus n sid).sent = bus.sent ++ l := by
  rw [save_config, send_eval]
  exact ⟨_, rfl⟩

theorem setup_sent_extends (bus : Bus) (node_id : ℕ)
    (settings : List (String × PyVal)) (eps : Endpoints) :
    ∃ l, (setup_odrive bus node_id settings eps).1.sent = bus.sent ++ l := by
  rw [setup_odrive]
  rcases hl : setup_loop node_id eps bus settings with ⟨bus1, res⟩
  have h1 : ∃ l, bus1.sent = bus.sent ++ l := by
    have hx := setup_loop_sent_extends node_id eps settings bus
    rw [hl] at hx
    exact hx
  cases res with
  | error m => exact h1
  | ok b =>
    cases b
    · exact h1
    · cases lookupEndpoint eps pathSave with
      | none => exact h1
      | some sinfo => exact sent_extends_trans h1 (save_sent_extends bus1 node_id sinfo.id)

/-- C1: the batch configurator processes the settings in order and cuts
off at the first failure: there is a cut point n such that the first n
settings were processed and all succeeded, and either n covers the whole
list, in which case the persist command is sent (setup_odrive ends in
save_config) and True is returned, or setting n is the first failure
(returning something other than ok-true: unknown path, unresponsive
read or failed validation all do), in which case the final bus state is
exactly the state after processing that failing setting — no later
setting is attempted and no persist is sent — and False is returned.
The last conjunct records that the whole run only ever appends frames
to the bus, so already-applied settings are never rolled back. -/
theorem c1_setup_odrive_fail_fast_persist (bus : Bus) (node_id : ℕ)
    (settings : List (String × PyVal)) (eps : Endpoints) (sinfo : EndpointInfo)
    (hsave : lookupEndpoint eps pathSave = Option.some sinfo) :
    ∃ n, n ≤ settings.length ∧
      (setup_loop node_id eps bus (settings.take n)).2 = .ok true ∧
      ((n = settings.length ∧
        setup_odrive bus node_id settings eps =
          (save_config (setup_loop node_id eps bus (settings.take n)).1 node_id sinfo.id,
            true)) ∨
       (∃ p v, settings[n]? = Option.some (p, v) ∧
        (set_odrive_parameter (setup_loop node_id eps bus (settings.take n)).1 node_id p v
            eps defaultTolerance).2 ≠ .ok true ∧
        setup_odrive bus node_id settings eps =
          ((set_odrive_parameter (setup_loop node_id eps bus (settings.take n)).1 node_id
              p v eps defaultTolerance).1, false))) ∧
      (∃ l, (setup_odrive bus node_id settings eps).1.sent = bus.sent ++ l) := by
  induction settings generalizing bus with
  | nil =>
    refine ⟨0, by simp, by simp [setup_loop], Or.inl ⟨rfl, ?_⟩,
      setup_sent_extends bus node_id [] eps⟩
    rw [setup_odrive]
    simp only [setup_loop, List.take_nil]
    rw [hsave]
  | cons s rest ih =>
    obtain ⟨p, v⟩ := s
    rcases hset : set_odrive_parameter bus node_id p v eps defaultTolerance with ⟨bus1, res⟩
    by_cases hok : res = Except.ok true
    · subst hok
      obtain ⟨n, hn, hpr, hcase, _⟩ := ih bus1
      have hl : setup_loop node_id eps bus ((p, v) :: rest)
          = setup_loop node_id eps bus1 rest := by
        simp only [setup_loop]
        rw [hset]
      have hstep : setup_odrive bus node_id ((p, v) :: rest) eps
          = setup_odrive bus1 node_id rest eps := by
        rw [setup_odrive, setup_odrive, hl]
      have htake : ∀ m : ℕ, setup_loop node_id eps bus (((p, v) :: rest).take (m + 1))
          = setup_loop node_id eps bus1 (rest.take m) := by
        intro m
        simp only [List.take_succ_cons, setup_loop]
        rw [hset]
      refine ⟨n + 1, by simpa using hn, ?_, ?_,
        setup_sent_extends bus node_id ((p, v) :: rest) eps⟩
      · rw [htake n]
        exact hpr
      · rcases hcase with ⟨hnlen, heq⟩ | ⟨p2, v2, hget, hfail, heq⟩
        · refine Or.inl ⟨by simp [hnlen], ?_⟩
          rw [hstep, htake n]
          exact heq
        · refine Or.inr ⟨p2, v2, by simpa using hget, ?_, ?_⟩
          · rw [htake n]
            exact hfail
          · rw [hstep, htake n]
            exact heq
    · have hfalse : setup_odrive bus node_id ((p, v) :: rest) eps = (bus1, false) := by
        rw [setup_odrive]
        simp only [setup_loop]
        rw [hset]
        cases res with
        | error m => rfl
        | ok b =>
          cases b
          · rfl
          · exact absurd rfl hok
      refine ⟨0, by simp, by simp [setup_loop], Or.inr ⟨p, v, by simp, ?_, ?_⟩, ?_⟩
      · simp only [List.take_zero, setup_loop]
        rw [hset]
        exact hok
      · simp only [List.take_zero, setup_loop]
        rw [hset]
        exact hfalse
      · rw [hfalse]
        have hx := set_param_sent_extends bus node_id p v eps defaultTolerance
        rw [hset] at hx
        exact hx

/-- Witness for C1 at the empty settings list on a quiet bus with a
registry holding only the save endpoint. -/
theorem c1_setup_odrive_fail_fast_persist_witness :
    ∃ n, n ≤ ([] : List (String × PyVal)).length ∧
      (setup_loop 1 [(pathSave, ⟨9, "uint32"⟩)] ⟨[], [], []⟩
          (([] : List (String × PyVal)).take n)).2 = .ok true ∧
      ((n = ([] : List (String × PyVal)).length ∧
        setup_odrive ⟨[], [], []⟩ 1 [] [(pathSave, ⟨9, "uint32"⟩)] =
          (save_config (setup_loop 1 [(pathSave, ⟨9, "uint32"⟩)] ⟨[], [], []⟩
              (([] : List (String × PyVal)).take n)).1 1
            (⟨9, "uint32"⟩ : EndpointInfo).id, true)) ∨
       (∃ p v, (([] : List (String × PyVal))[n]?) = Option.some (p, v) ∧
        (set_odrive_parameter (setup_loop 1 [(pathSave, ⟨9, "uint32"⟩)] ⟨[], [], []⟩
            (([] : List (String × PyVal)).take n)).1 1 p v
            [(pathSave, ⟨9, "uint32"⟩)] defaultTolerance).2 ≠ .ok true ∧
        setup_odrive ⟨[], [], []⟩ 1 [] [(pathSave, ⟨9, "uint32"⟩)] =
          ((set_odrive_parameter (setup_loop 1 [(pathSave, ⟨9, "uint32"⟩)] ⟨[], [], []⟩
              (([] : List (String × PyVal)).take n)).1 1 p v
              [(pathSave, ⟨9, "uint32"⟩)] defaultTolerance).1, false))) ∧
      (∃ l, (setup_odrive ⟨[], [], []⟩ 1 [] [(pathSave, ⟨9, "uint32"⟩)]).1.sent =
        ((⟨[], [], []⟩ : Bus)).sent ++ l) :=
  c1_setup_odrive_fail_fast_persist ⟨[], [], []⟩ 1 [] [(pathSave, ⟨9, "uint32"⟩)]
    ⟨9, "uint32"⟩ (by decide)

theorem read_config_readsTo (batch : List RxFrame) (node : ℕ) (info : EndpointInfo)
    (v : PyVal) (rest : List (List RxFrame)) (sent0 : List TxFrame)
    (h : ReadsTo batch node info v) :
    read_config ⟨batch :: rest, sent0, []⟩ node info.id info.ty
      = (⟨rest, sent0 ++ [readReq node info.id], []⟩, .ok v) := by
  rw [read_config_eval]
  rcases h with ⟨hscan, hv⟩ | ⟨f, fc, hscan, hfc, hunp⟩
  · subst hv
    simp [hscan, sdoReadResult]
  · simp [hscan, sdoReadResult, hfc, hunp]

theorem clear_one_eval (node_id : ℕ) (eps : Endpoints) (info : EndpointInfo)
    (path : String) (batch : List RxFrame) (rest : List (List RxFrame))
    (sent0 : List TxFrame) (v : PyVal) (clear : Bool) (fc : Char)
    (hlook : lookupEndpoint eps path = Option.some info)
    (hfc : format_lookup info.ty = Option.some fc)
    (h : ReadsTo batch node_id info v) :
    clear_one ⟨batch :: rest, sent0, []⟩ node_id eps clear path =
      (⟨rest,
        sent0 ++ [readReq node_id info.id] ++
          (if pyTruthy v && (clear && strContains path activeErrorsKey)
           then [writeReq node_id info.id fc (.int 0)] else []),
        []⟩,
       (if pyTruthy v then
          ClearEvent.errorFound node_id path v ::
            (if clear && strContains path activeErrorsKey
             then [ClearEvent.errorCleared node_id path] else [])
        else [ClearEvent.noError node_id path]),
       Option.none) := by
  rw [clear_one, hlook]
  dsimp only
  rw [read_config_readsTo batch node_id info v rest sent0 h]
  dsimp only
  by_cases ht : pyTruthy v = true
  · by_cases hcs : (clear && strContains path activeErrorsKey) = true
    · simp only [ht, hcs, if_true]
      rw [write_config, hfc]
      dsimp only
      rw [send_eval]
      simp [writeReq, List.append_assoc]
    · simp [ht, hcs]
  · simp [ht]

/-- C9 (amended): for the two error endpoints clear_errors inspects, a
clearing write (SDO write of value 0) is issued exactly when the read
returned a truthy value AND the endpoint path contains active_errors AND
clear is set; a truthy disarm_reason read is reported as an error but
never written. The output depends on the read values only through
truthiness and the reported value, so a node whose read times out (None)
produces literally the same report events and the same bus traffic as a
node whose error value is 0: both are reported as no error with no
clearing write, making an unresponsive node indistinguishable from an
error-free one. -/
theorem c9_clear_errors_write_iff (node_id : ℕ) (eps : Endpoints)
    (infoA infoD : EndpointInfo) (b1 b2 : List RxFrame) (vA vD : PyVal)
    (clear : Bool) (fcA fcD : Char)
    (hA : lookupEndpoint eps pathActiveErrors = Option.some infoA)
    (hD : lookupEndpoint eps pathDisarmReason = Option.some infoD)
    (hfcA : format_lookup infoA.ty = Option.some fcA)
    (hfcD : format_lookup infoD.ty = Option.some fcD)
    (h1 : ReadsTo b1 node_id infoA vA)
    (h2 : ReadsTo b2 node_id infoD vD) :
    clear_errors ⟨[b1, b2], [], []⟩ node_id eps clear =
      (⟨[],
        [readReq node_id infoA.id] ++
          (if pyTruthy vA && clear then [writeReq node_id infoA.id fcA (.int 0)]
           else []) ++
          [readReq node_id infoD.id],
        []⟩,
       (if pyTruthy vA then
          ClearEvent.errorFound node_id pathActiveErrors vA ::
            (if clear then [ClearEvent.errorCleared node_id pathActiveErrors] else [])
        else [ClearEvent.noError node_id pathActiveErrors]) ++
        (if pyTruthy vD then [ClearEvent.errorFound node_id pathDisarmReason vD]
         else [ClearEvent.noError node_id pathDisarmReason]),
       Option.none) := by
  have hsubA : strContains pathActiveErrors activeErrorsKey = true := by decide
  have hsubD : strContains pathDisarmReason activeErrorsKey = false := by decide
  rw [clear_errors]
  rw [clear_one_eval node_id eps infoA pathActiveErrors b1 [b2] [] vA clear fcA hA hfcA h1]
  dsimp only
  rw [clear_one_eval node_id eps infoD pathDisarmReason b2 []
    ([] ++ [readReq node_id infoA.id] ++
      (if pyTruthy vA && (clear && strContains pathActiveErrors activeErrorsKey)
       then [writeReq node_id infoA.id fcA (.int 0)] else []))
    vD clear fcD hD hfcD h2]
  simp [hsubA, hsubD, List.append_assoc]

/-- C9 counterexample: with clear set, a node whose active_errors read
yields 0 but whose disarm_reason read yields the truthy value 5 gets an
error report for disarm_reason, yet no write frame at all is issued, so
a truthy read does not imply a clearing write for every inspected error
endpoint. -/
theorem c9_disarm_truthy_not_written :
    (ClearEvent.errorFound 1 pathDisarmReason (.int 5)) ∈
      (clear_errors ⟨[[respFrame 1 [0, 0, 0, 0, 0, 0, 0, 0]],
          [respFrame 1 [0, 0, 0, 0, 5, 0, 0, 0]]], [], []⟩ 1
        [(pathActiveErrors, ⟨10, "uint32"⟩), (pathDisarmReason, ⟨11, "uint32"⟩)]
        true).2.1 ∧
    (∀ f ∈ (clear_errors ⟨[[respFrame 1 [0, 0, 0, 0, 0, 0, 0, 0]],
          [respFrame 1 [0, 0, 0, 0, 5, 0, 0, 0]]], [], []⟩ 1
        [(pathActiveErrors, ⟨10, "uint32"⟩), (pathDisarmReason, ⟨11, "uint32"⟩)]
        true).1.sent, f.args.headD PyVal.none ≠ .int WRITE) := by
  constructor
  · decide
  · decide

/-- Witness for C9 with clear set: the active_errors read times out
(None) and the disarm_reason read returns 0; both are reported as no
error and no write frame is issued. -/
theorem c9_clear_errors_write_iff_witness :
    clear_errors ⟨[[], [respFrame 1 [0, 0, 0, 0, 0, 0, 0, 0]]], [], []⟩ 1
        [(pathActiveErrors, ⟨10, "uint32"⟩), (pathDisarmReason, ⟨11, "uint32"⟩)] true =
      (⟨[],
        [readReq 1 10] ++
          (if pyTruthy PyVal.none && true then [writeReq 1 10 'I' (.int 0)] else []) ++
          [readReq 1 11],
        []⟩,
       (if pyTruthy PyVal.none then
          ClearEvent.errorFound 1 pathActiveErrors PyVal.none ::
            (if true then [ClearEvent.errorCleared 1 pathActiveErrors] else [])
        else [ClearEvent.noError 1 pathActiveErrors]) ++
        (if pyTruthy (.int 0) then [ClearEvent.errorFound 1 pathDisarmReason (.int 0)]
         else [ClearEvent.noError 1 pathDisarmReason]),
       Option.none) :=
  c9_clear_errors_write_iff 1
    [(pathActiveErrors, ⟨10, "uint32"⟩), (pathDisarmReason, ⟨11, "uint32"⟩)]
    ⟨10, "uint32"⟩ ⟨11, "uint32"⟩ [] [respFrame 1 [0, 0, 0, 0, 0, 0, 0, 0]]
    PyVal.none (.int 0) true 'I' 'I' (by decide) (by decide) (by decide) (by decide)
    (Or.inl ⟨by decide, rfl⟩)
    (Or.inr ⟨respFrame 1 [0, 0, 0, 0, 0, 0, 0, 0], 'I', by decide, by decide, by decide⟩)

theorem clear_one_sent_char (bus : Bus) (node_id : ℕ) (eps : Endpoints) (clear : Bool)
    (path : String) :
    ∃ l, (clear_one bus node_id eps clear path).1.sent = bus.sent ++ l ∧
      ∀ f ∈ l,
        (f.fmt = fmtBHB ∧ f.args.headD PyVal.none = .int READ) ∨
        (clear = true ∧ strContains path activeErrorsKey = true ∧
          ∃ info fc, lookupEndpoint eps path = Option.some info ∧
            format_lookup info.ty = Option.some fc ∧
            f = writeReq node_id info.id fc (.int 0)) := by
  rw [clear_one]
  cases hlook : lookupEndpoint eps path with
  | none =>
    exact ⟨[], by simp, by simp⟩
  | some info =>
    dsimp only
    rw [read_config_eval]
    have hreadPart : ∀ f ∈ (if bus.sendOk.headD true then [readReq node_id info.id]
        else ([] : List TxFrame)),
        f.fmt = fmtBHB ∧ f.args.headD PyVal.none = .int READ := by
      intro f hf
      by_cases hsk : bus.sendOk.headD true = true
      · rw [if_pos hsk] at hf
        simp at hf
        subst hf
        exact ⟨rfl, rfl⟩
      · rw [if_neg hsk] at hf
        simp at hf
    cases hres : sdoReadResult info.ty
        (scanForId (bus.incoming.headD []) (encode_address node_id TXSDO)) with
    | error m =>
      exact ⟨_, rfl, fun f hf => Or.inl (hreadPart f hf)⟩
    | ok v =>
      dsimp only
      by_cases ht : pyTruthy v = true
      · rw [if_pos ht]
        by_cases hcs : (clear && strContains path activeErrorsKey) = true
        · rw [if_pos hcs]
          rw [write_config]
          cases hfc : format_lookup info.ty with
          | none =>
            exact ⟨_, rfl, fun f hf => Or.inl (hreadPart f hf)⟩
          | some fc =>
            dsimp only
            rw [send_eval]
            dsimp only
            refine ⟨_, by rw [List.append_assoc], ?_⟩
            intro f hf
            rcases List.mem_append.mp hf with hf1 | hf2
            · exact Or.inl (hreadPart f hf1)
            · right
              obtain ⟨hcl, hsub⟩ : clear = true ∧ strContains path activeErrorsKey = true := by
                simpa using hcs
              refine ⟨hcl, hsub, info, fc, rfl, hfc, ?_⟩
              by_cases hsk2 : (Bus.sendOk ⟨bus.incoming.tail,
                  bus.sent ++ (if bus.sendOk.headD true then [readReq node_id info.id]
                    else []), bus.sendOk.tail⟩).headD true = true
              · rw [if_pos hsk2] at hf2
                simp at hf2
                subst hf2
                rfl
              · rw [if_neg hsk2] at hf2
                simp at hf2
        · rw [if_neg hcs]
          exact ⟨_, rfl, fun f hf => Or.inl (hreadPart f hf)⟩
      · rw [if_neg ht]
        exact ⟨_, rfl, fun f hf => Or.inl (hreadPart f hf)⟩

/-- C10: every frame clear_errors ever appends to the bus is either an
SDO read request (opcode READ) for one of the error endpoints, or — only
when clear is set — the single clearing write: an SDO write of value 0
to the endpoint registered under the active_errors path. With clear
unset, every appended frame is a read request; consequently the
disarm_reason endpoint is only ever read, and no other node state is
touched by the operation. -/
theorem c10_clear_errors_writes_only_active (bus : Bus) (node_id : ℕ)
    (eps : Endpoints) (clear : Bool) :
    ∃ l, (clear_errors bus node_id eps clear).1.sent = bus.sent ++ l ∧
      (∀ f ∈ l,
        (f.fmt = fmtBHB ∧ f.args.headD PyVal.none = .int READ) ∨
        (clear = true ∧ ∃ info fc,
          lookupEndpoint eps pathActiveErrors = Option.some info ∧
          format_lookup info.ty = Option.some fc ∧
          f = writeReq node_id info.id fc (.int 0))) ∧
      (clear = false →
        ∀ f ∈ l, f.fmt = fmtBHB ∧ f.args.headD PyVal.none = .int READ) := by
  have hsubD : strContains pathDisarmReason activeErrorsKey = false := by decide
  rw [clear_errors]
  rcases hco1 : clear_one bus node_id eps clear pathActiveErrors with ⟨bus1, evs1, r1⟩
  obtain ⟨l1, hl1, hp1⟩ := clear_one_sent_char bus node_id eps clear pathActiveErrors
  rw [hco1] at hl1
  have hq1 : ∀ f ∈ l1,
      (f.fmt = fmtBHB ∧ f.args.headD PyVal.none = .int READ) ∨
      (clear = true ∧ ∃ info fc,
        lookupEndpoint eps pathActiveErrors = Option.some info ∧
        format_lookup info.ty = Option.some fc ∧
        f = writeReq node_id info.id fc (.int 0)) := by
    intro f hf
    rcases hp1 f hf with hleft | ⟨hcl, _, info, fc, hlk, hfc, hfr⟩
    · exact Or.inl hleft
    · exact Or.inr ⟨hcl, info, fc, hlk, hfc, hfr⟩
  cases r1 with
  | some m =>
    refine ⟨l1, hl1, hq1, ?_⟩
    intro hcl f hf
    rcases hq1 f hf with hleft | ⟨hc, _⟩
    · exact hleft
    · rw [hcl] at hc
      cases hc
  | none =>
    dsimp only
    rcases hco2 : clear_one bus1 node_id eps clear pathDisarmReason with ⟨bus2, evs2, r2⟩
    obtain ⟨l2, hl2, hp2⟩ := clear_one_sent_char bus1 node_id eps clear pathDisarmReason
    rw [hco2] at hl2
    have hq2 : ∀ f ∈ l2, f.fmt = fmtBHB ∧ f.args.headD PyVal.none = .int READ := by
      intro f hf
      rcases hp2 f hf with hleft | ⟨_, hsub, _⟩
      · exact hleft
      · rw [hsubD] at hsub
        cases hsub
    refine ⟨l1 ++ l2, ?_, ?_, ?_⟩
    · rw [hl2, hl1, List.append_assoc]
    · intro f hf
      rcases List.mem_append.mp hf with hf1 | hf2
      · exact hq1 f hf1
      · exact Or.inl (hq2 f hf2)
    · intro hcl f hf
      rcases List.mem_append.mp hf with hf1 | hf2
      · rcases hq1 f hf1 with hleft | ⟨hc, _⟩
        · exact hleft
        · rw [hcl] at hc
          cases hc
      · exact hq2 f hf2

/-- Witness for C10 on a node with a truthy active error and clear set:
the run issues the clearing write to the active_errors endpoint and
otherwise only read requests. -/
theorem c10_clear_errors_writes_only_active_witness :
    ∃ l, (clear_errors ⟨[[respFrame 1 [0, 0, 0, 0, 5, 0, 0, 0]],
          [respFrame 1 [0, 0, 0, 0, 0, 0, 0, 0]]], [], []⟩ 1
        [(pathActiveErrors, ⟨10, "uint32"⟩), (pathDisarmReason, ⟨11, "uint32"⟩)]
        true).1.sent =
      ((⟨[[respFrame 1 [0, 0, 0, 0, 5, 0, 0, 0]],
          [respFrame 1 [0, 0, 0, 0, 0, 0, 0, 0]]], [], []⟩ : Bus)).sent ++ l ∧
      (∀ f ∈ l,
        (f.fmt = fmtBHB ∧ f.args.headD PyVal.none = .int READ) ∨
        (true = true ∧ ∃ info fc,
          lookupEndpoint [(pathActiveErrors, ⟨10, "uint32"⟩),
            (pathDisarmReason, ⟨11, "uint32"⟩)] pathActiveErrors = Option.some info ∧
          format_lookup info.ty = Option.some fc ∧
          f = writeReq 1 info.id fc (.int 0))) ∧
      (true = false →
        ∀ f ∈ l, f.fmt = fmtBHB ∧ f.args.headD PyVal.none = .int READ) :=
  c10_clear_errors_writes_only_active
    ⟨[[respFrame 1 [0, 0, 0, 0, 5, 0, 0, 0]], [respFrame 1 [0, 0, 0, 0, 0, 0, 0, 0]]],
      [], []⟩ 1
    [(pathActiveErrors, ⟨10, "uint32"⟩), (pathDisarmReason, ⟨11, "uint32"⟩)] true

end ODrive
